import Mathlib

/-!
Shallow embedding of `src/apct-tests/perftests/core/src/android/libcore/ImtConflictPerfTestGen.py`.

The script is a one-shot text generator: it parses `int(sys.argv[1])` as
`imt_size`, and prints a Java benchmark file line by line to standard output.
We model the produced standard output as a `List String` of lines, where a
Python `print(s)` call on a (possibly multi-line) string `s` contributes the
lines obtained by splitting `s` at newline characters.  Loop counters
(`range(...)` over non-negative bounds) are modelled with `List.range`;
`imt_size` itself is an arbitrary `Int`, matching Python's unbounded `int`,
and `range(imt_size)` is modelled as `List.range imt_size.toNat` (empty for
non-positive sizes, exactly as in Python).  Literal braces of the generated
Java text are written with the escapes `\x7b` and `\x7d`.
-/

namespace ImtGen

/-- `max_conflict_depth = 20`, the constant at the top of the script. -/
def max_conflict_depth : Nat := 20

/-- Lines of the `license` triple-quoted string as printed
(`print(license)` appends one further newline, hence the trailing `""`). -/
def licenseBlock : List String :=
  ["/*",
   " * Copyright 2016 The Android Open Source Project",
   " *",
   " * Licensed under the Apache License, Version 2.0 (the \"License\");",
   " * you may not use this file except in compliance with the License.",
   " * You may obtain a copy of the License at",
   " *",
   " *      http://www.apache.org/licenses/LICENSE-2.0",
   " *",
   " * Unless required by applicable law or agreed to in writing, software",
   " * distributed under the License is distributed on an \"AS IS\" BASIS,",
   " * WITHOUT WARRANTIES OR CONDITIONS OF ANY KIND, either express or implied.",
   " * See the License for the specific language governing permissions and",
   " * limitations under the License.",
   " */",
   ""]

/-- Lines of the `imports` triple-quoted string as printed (the string opens
and closes with a newline, hence the leading and trailing `""`). -/
def importsBlock : List String :=
  ["",
   "import android.perftests.utils.BenchmarkState;",
   "import android.perftests.utils.PerfStatusReporter;",
   "import android.test.suitebuilder.annotation.LargeTest;",
   "",
   "import androidx.test.runner.AndroidJUnit4;",
   "",
   "import org.junit.Before;",
   "import org.junit.Rule;",
   "import org.junit.Test;",
   "import org.junit.runner.RunWith;",
   ""]

/-- Lines of the `description` triple-quoted string as printed (the string
opens with a newline and its last line uses a backslash continuation, so
there is a leading `""` and no trailing blank line). -/
def descriptionBlock : List String :=
  ["",
   "/**",
   " * This file is script-generated by ImtConflictPerfTestGen.py.",
   " * It measures the performance impact of conflicts in interface method tables.",
   " * Run `python ImtConflictPerfTestGen.py > ImtConflictPerfTest.java` to regenerate.",
   " *",
   " * Each interface has 64 methods, which is the current size of an IMT. C0 implements",
   " * one interface, C1 implements two, C2 implements three, and so on. The intent",
   " * is that C0 has no conflicts in its IMT, C1 has depth-2 conflicts in",
   " * its IMT, C2 has depth-3 conflicts, etc. This is currently guaranteed by",
   " * the fact that we hash interface methods by taking their method index modulo 64.",
   " * (Note that a \"conflict depth\" of 1 means no conflict at all.)",
   " */"]

/-- The body of the `setup()` warm-up loop for class index `i`:
`print("        C{0} c{0} = new C{0}();".format(i))` followed by
`print("        callF{}(c{});".format(imt_size * j, i))` for `j` in
`range(i+1)`. -/
def setupBlock (imt_size : Int) (i : Nat) : List String :=
  ("        C" ++ toString i ++ " c" ++ toString i ++ " = new C" ++ toString i ++ "();")
  :: (List.range (i + 1)).map (fun j : Nat =>
      "        callF" ++ toString (imt_size * (j : Int)) ++ "(c" ++ toString i ++ ");")

/-- Python `"{:02d}".format(n)` for a non-negative `n`: zero-pad to width 2. -/
def pad2 (n : Nat) : String :=
  if n < 10 then "0" ++ toString n else toString n

/-- The timed-loop body of benchmark `i`:
`print("            callF{}(c{});".format(imt_size * (j % (i + 1)), i))`
for `j` in `range(max_conflict_depth)`. -/
def benchmarkBody (imt_size : Int) (i : Nat) : List String :=
  (List.range max_conflict_depth).map (fun j =>
    "            callF" ++ toString (imt_size * ((j % (i + 1) : Nat) : Int))
      ++ "(c" ++ toString i ++ ");")

/-- The lines printed for test case `i` (conflict depth `i+1`). -/
def benchmarkLines (imt_size : Int) (i : Nat) : List String :=
  ["    @Test",
   "    public void timeConflictDepth" ++ pad2 (i + 1) ++ "() \x7b",
   "        C" ++ toString i ++ " c" ++ toString i ++ " = new C" ++ toString i ++ "();",
   "        BenchmarkState state = mPerfStatusReporter.getBenchmarkState();",
   "        while (state.keepRunning()) \x7b"]
  ++ benchmarkBody imt_size i
  ++ ["        \x7d",
      "    \x7d"]

/-- The dispatch-helper line for interface `i`:
`print("    public void callF{0}(I{1} i) {{ i.f{0}(); }}".format(imt_size*i, i))`. -/
def helperLine (imt_size : Int) (i : Nat) : String :=
  "    public void callF" ++ toString (imt_size * (i : Int)) ++ "(I" ++ toString i
    ++ " i) \x7b i.f" ++ toString (imt_size * (i : Int)) ++ "(); \x7d"

/-- The interface names joined for class `i`:
`", ".join(["I{}".format(j) for j in range(i+1)])`, kept as the list before
joining. -/
def classInterfaceList (i : Nat) : List String :=
  (List.range (i + 1)).map (fun j => "I" ++ toString j)

/-- The class-declaration line for class `i`:
`print("    static class C{} implements {} {{}}".format(i, interfaces))`. -/
def classLine (i : Nat) : String :=
  "    static class C" ++ toString i ++ " implements "
    ++ String.intercalate ", " (classInterfaceList i) ++ " \x7b\x7d"

/-- The method indices of interface `i`: `i*imt_size + j` for `j` in
`range(imt_size)` (Python arithmetic on `int`, empty for non-positive
`imt_size`). -/
def interfaceMethodIndices (imt_size : Int) (i : Nat) : List Int :=
  (List.range imt_size.toNat).map (fun j : Nat => (i : Int) * imt_size + (j : Int))

/-- The lines printed for interface `i`: its header, one
`default void f{index}() {}` line per method index, and the closing brace. -/
def interfaceLines (imt_size : Int) (i : Nat) : List String :=
  ("    interface I" ++ toString i ++ " \x7b")
  :: ((interfaceMethodIndices imt_size i).map (fun k =>
        "        default void f" ++ toString k ++ "() \x7b\x7d")
      ++ ["    \x7d"])

/-- The whole standard output of a successful run, one entry per printed
line, in the exact order of the script's `print` statements. -/
def generate (imt_size : Int) : List String :=
  licenseBlock
  ++ ["package android.libcore;"]
  ++ importsBlock
  ++ descriptionBlock
  ++ ["@RunWith(AndroidJUnit4.class)",
      "@LargeTest",
      "public class ImtConflictPerfTest \x7b",
      "    @Rule",
      "    public PerfStatusReporter mPerfStatusReporter = new PerfStatusReporter();",
      "",
      "    @Before",
      "    public void setup() \x7b"]
  ++ (List.range max_conflict_depth).flatMap (setupBlock imt_size)
  ++ ["    \x7d"]
  ++ (List.range max_conflict_depth).flatMap (benchmarkLines imt_size)
  ++ (List.range max_conflict_depth).map (helperLine imt_size)
  ++ (List.range max_conflict_depth).map classLine
  ++ (List.range max_conflict_depth).flatMap (interfaceLines imt_size)
  ++ ["\x7d"]

/-- The usage message printed on the error path. -/
def usageLine : String := "Usage: python ImtConflictPerfTestGen.py <IMT_SIZE>"

/-- The numeric value of a decimal digit character, or `none`. -/
def digit? (c : Char) : Option Nat :=
  if 48 ≤ c.toNat ∧ c.toNat ≤ 57 then some (c.toNat - 48) else none

/-- Accumulates a decimal digit run; fails on the first non-digit. -/
def digitsToNat : Nat → List Char → Option Nat
  | acc, [] => some acc
  | acc, c :: cs =>
    match digit? c with
    | some d => digitsToNat (acc * 10 + d) cs
    | none => none

/-- Models Python's `int` conversion of a string: an optional sign followed
by a non-empty run of decimal digits yields the denoted integer, anything
else raises `ValueError`, modelled as `none`.  (Python additionally
tolerates surrounding whitespace and digit-group underscores; no claim
depends on those inputs.) -/
def pyInt? (s : String) : Option Int :=
  match s.toList with
  | '-' :: cs => if cs.isEmpty then none else (digitsToNat 0 cs).map (fun n => -(n : Int))
  | '+' :: cs => if cs.isEmpty then none else (digitsToNat 0 cs).map (fun n => (n : Int))
  | cs => if cs.isEmpty then none else (digitsToNat 0 cs).map (fun n => (n : Int))

/-- Models `int(sys.argv[1])` under the script's `try/except (IndexError,
ValueError)`: `none` when `sys.argv` has no element at index 1
(`IndexError`) or when the element is not an integer literal
(`ValueError`); otherwise the parsed integer. -/
def parseImtSize (argv : List String) : Option Int :=
  match argv with
  | _ :: a :: _ => pyInt? a
  | _ => none

/-- Observable behaviour of one process run: the standard-output lines and
the exit status. -/
structure RunResult where
  output : List String
  exitCode : Nat
  deriving DecidableEq, Repr

/-- The whole script as a function from `sys.argv` to observable behaviour:
on a parse failure it prints the usage line and exits with status 1,
otherwise it prints the generated file and exits with status 0. -/
def run (argv : List String) : RunResult :=
  match parseImtSize argv with
  | none => ⟨[usageLine], 1⟩
  | some n => ⟨generate n, 0⟩

/-- The fixed six lines that open the test-suite class. -/
def headerBlock : List String :=
  ["@RunWith(AndroidJUnit4.class)",
   "@LargeTest",
   "public class ImtConflictPerfTest \x7b",
   "    @Rule",
   "    public PerfStatusReporter mPerfStatusReporter = new PerfStatusReporter();",
   ""]

/-- The `setup()` method: annotation, signature, the twenty warm-up blocks,
and the closing brace. -/
def setupSection (imt_size : Int) : List String :=
  ["    @Before", "    public void setup() \x7b"]
  ++ (List.range max_conflict_depth).flatMap (setupBlock imt_size)
  ++ ["    \x7d"]

/-- The twenty timed benchmark methods. -/
def benchmarkSection (imt_size : Int) : List String :=
  (List.range max_conflict_depth).flatMap (benchmarkLines imt_size)

/-- The twenty dispatch helper methods, one line each. -/
def helperSection (imt_size : Int) : List String :=
  (List.range max_conflict_depth).map (helperLine imt_size)

/-- The twenty class declarations, one line each. -/
def classSection : List String :=
  (List.range max_conflict_depth).map classLine

/-- The twenty interface declarations. -/
def interfaceSection (imt_size : Int) : List String :=
  (List.range max_conflict_depth).flatMap (interfaceLines imt_size)

/-- Flattening row-major blocks of `b` consecutive naturals recovers
`List.range (a * b)`. -/
theorem range_flatMap_mul (a b : Nat) :
    (List.range a).flatMap (fun i => (List.range b).map (fun j => i * b + j))
      = List.range (a * b) := by
  induction a with
  | zero => simp
  | succ a ih =>
    rw [List.range_succ, List.flatMap_append, ih, Nat.succ_mul, List.range_add]
    simp [Nat.add_comm]

/-- Casting `List.range` into `Int` keeps it duplicate-free. -/
theorem nodup_range_cast (m : Nat) :
    ((List.range m).map (fun k : Nat => (k : Int))).Nodup :=
  (List.nodup_range m).map (fun a b hab => by exact_mod_cast hab)

/-- C1: for every positive `imt_size` the generator emits exactly
`max_conflict_depth` (20) interface blocks; block `i` opens with
`interface I{i}`, contains exactly `imt_size` trivial default methods
named `f{i*imt_size + j}` for `j` below `imt_size`, and the method indices
over all interfaces, in emission order, are exactly the contiguous range
`0..imt_size*max_conflict_depth`, with no duplicates. -/
theorem interfaces_contiguous (n : Int) (h : 0 < n) :
    ((List.range max_conflict_depth).map (interfaceLines n)).length = max_conflict_depth
    ∧ (∀ i, i < max_conflict_depth →
        (interfaceLines n i).head? = some ("    interface I" ++ toString i ++ " \x7b")
        ∧ (interfaceMethodIndices n i).length = n.toNat
        ∧ ∀ j, j < n.toNat →
            (interfaceLines n i)[j + 1]?
              = some ("        default void f" ++ toString ((i : Int) * n + (j : Int))
                  ++ "() \x7b\x7d"))
    ∧ (List.range max_conflict_depth).flatMap (interfaceMethodIndices n)
        = (List.range (n.toNat * max_conflict_depth)).map (fun k : Nat => (k : Int))
    ∧ ((List.range max_conflict_depth).flatMap (interfaceMethodIndices n)).Nodup := by
  have hn : ((n.toNat : Nat) : Int) = n := Int.toNat_of_nonneg (le_of_lt h)
  have key : ∀ i : Nat,
      interfaceMethodIndices n i
        = ((List.range n.toNat).map (fun j => i * n.toNat + j)).map
            (fun k : Nat => (k : Int)) := by
    intro i
    rw [List.map_map, interfaceMethodIndices]
    refine List.map_congr_left (fun j _ => ?_)
    show (i : Int) * n + (j : Int) = ((i * n.toNat + j : Nat) : Int)
    have hc : ((i * n.toNat + j : Nat) : Int)
        = (i : Int) * ((n.toNat : Nat) : Int) + (j : Int) := by
      push_cast
      ring
    rw [hc, hn]
  have flat :
      (List.range max_conflict_depth).flatMap (interfaceMethodIndices n)
        = (List.range (n.toNat * max_conflict_depth)).map (fun k : Nat => (k : Int)) := by
    rw [show (List.range max_conflict_depth).flatMap (interfaceMethodIndices n)
          = (List.range max_conflict_depth).flatMap
              (fun i => ((List.range n.toNat).map (fun j => i * n.toNat + j)).map
                (fun k : Nat => (k : Int)))
        from List.flatMap_congr (fun i _ => key i)]
    rw [← List.map_flatMap, range_flatMap_mul, Nat.mul_comm]
  refine ⟨by simp, ?_, flat, ?_⟩
  · intro i _
    refine ⟨rfl, ?_, fun j hj => ?_⟩
    · rw [interfaceMethodIndices, List.length_map, List.length_range]
    · have hj' : j < ((interfaceMethodIndices n i).map
          (fun k => "        default void f" ++ toString k ++ "() \x7b\x7d")).length := by
        rw [List.length_map, interfaceMethodIndices, List.length_map, List.length_range]
        exact hj
      rw [interfaceLines, List.getElem?_cons_succ, List.getElem?_append_left hj',
        List.getElem?_map, interfaceMethodIndices, List.getElem?_map,
        List.getElem?_range hj]
      rfl
  · rw [flat]
    exact nodup_range_cast _

/-- C1 witness: instantiation at `imt_size = 2`, keeping the contiguity
conjunct. -/
theorem interfaces_contiguous_witness :
    (0 : Int) < 2
    ∧ (List.range max_conflict_depth).flatMap (interfaceMethodIndices 2)
        = (List.range ((2 : Int).toNat * max_conflict_depth)).map (fun k : Nat => (k : Int)) :=
  ⟨by decide, (interfaces_contiguous 2 (by decide)).2.2.1⟩

/-- C3: class `i` is declared on one line as `static class C{i}` with an
empty body, implementing exactly the interfaces `I0, ..., Ii` in that
order, a list of length `i+1`. -/
theorem class_implements_spec (i : Nat) (h : i < max_conflict_depth) :
    classSection[i]? = some (classLine i)
    ∧ (classInterfaceList i).length = i + 1
    ∧ (∀ j, j < i + 1 → (classInterfaceList i)[j]? = some ("I" ++ toString j))
    ∧ classLine i
        = "    static class C" ++ toString i ++ " implements "
            ++ String.intercalate ", " (classInterfaceList i) ++ " \x7b\x7d" := by
  refine ⟨?_, by simp [classInterfaceList], fun j hj => ?_, rfl⟩
  · simp [classSection, List.getElem?_map, List.getElem?_range, h]
  · simp [classInterfaceList, List.getElem?_map, List.getElem?_range, hj]

/-- C3 witness: instantiation at `i = 5`, the class of the spec's concrete
scenario. -/
theorem class_implements_spec_witness :
    5 < max_conflict_depth
    ∧ ((classInterfaceList 5).length = 5 + 1
        ∧ classLine 5
            = "    static class C" ++ toString 5 ++ " implements "
                ++ String.intercalate ", " (classInterfaceList 5) ++ " \x7b\x7d") :=
  ⟨by decide,
   ⟨(class_implements_spec 5 (by decide)).2.1,
    (class_implements_spec 5 (by decide)).2.2.2⟩⟩

/-- C5: exactly one dispatch helper is emitted per interface index `i`
(the helper section is one line per `i` below 20); the helper for
interface `i` takes one parameter typed `I{i}` and invokes `f{imt_size*i}`
on it — the invoked method index is the same expression `imt_size*i` as
the helper's own name index. -/
theorem helper_emission_spec (n : Int) (i : Nat) (h : i < max_conflict_depth) :
    (helperSection n).length = max_conflict_depth
    ∧ (helperSection n)[i]? = some (helperLine n i)
    ∧ helperLine n i
        = "    public void callF" ++ toString (n * (i : Int)) ++ "(I" ++ toString i
            ++ " i) \x7b i.f" ++ toString (n * (i : Int)) ++ "(); \x7d" := by
  refine ⟨by simp [helperSection], ?_, rfl⟩
  simp [helperSection, List.getElem?_map, List.getElem?_range, h]

/-- C5 witness: instantiation at `imt_size = 64`, interface `3`. -/
theorem helper_emission_spec_witness :
    3 < max_conflict_depth
    ∧ helperLine 64 3
        = "    public void callF" ++ toString ((64 : Int) * (3 : Nat))
            ++ "(I" ++ toString 3
            ++ " i) \x7b i.f" ++ toString ((64 : Int) * (3 : Nat)) ++ "(); \x7d" :=
  ⟨by decide, (helper_emission_spec 64 3 (by decide)).2.2⟩

/-- C2: benchmark method `i` is named `timeConflictDepth{i+1:02d}`, begins
by constructing one instance of `C{i}`, and its timed loop body consists of
exactly `max_conflict_depth` (20) dispatch calls, call `j` invoking
`callF{imt_size*(j mod (i+1))}` on that instance. -/
theorem benchmark_method_spec (n : Int) (i : Nat) (h : i < max_conflict_depth) :
    (benchmarkLines n i)[1]?
        = some ("    public void timeConflictDepth" ++ pad2 (i + 1) ++ "() \x7b")
    ∧ (benchmarkLines n i)[2]?
        = some ("        C" ++ toString i ++ " c" ++ toString i
            ++ " = new C" ++ toString i ++ "();")
    ∧ (benchmarkBody n i).length = max_conflict_depth
    ∧ (∀ j, j < max_conflict_depth →
        (benchmarkBody n i)[j]?
          = some ("            callF" ++ toString (n * ((j % (i + 1) : Nat) : Int))
              ++ "(c" ++ toString i ++ ");"))
    ∧ benchmarkLines n i
        = ["    @Test",
           "    public void timeConflictDepth" ++ pad2 (i + 1) ++ "() \x7b",
           "        C" ++ toString i ++ " c" ++ toString i
             ++ " = new C" ++ toString i ++ "();",
           "        BenchmarkState state = mPerfStatusReporter.getBenchmarkState();",
           "        while (state.keepRunning()) \x7b"]
          ++ benchmarkBody n i
          ++ ["        \x7d", "    \x7d"] := by
  refine ⟨rfl, rfl, by simp [benchmarkBody], fun j hj => ?_, rfl⟩
  simp [benchmarkBody, List.getElem?_map, List.getElem?_range, hj]

/-- C2 witness: the spec's concrete scenario `imt_size = 1`, depth 6:
the method header of `benchmarkLines 1 5` is `timeConflictDepth06`. -/
theorem benchmark_method_spec_witness :
    5 < max_conflict_depth
    ∧ (benchmarkLines 1 5)[1]?
        = some ("    public void timeConflictDepth" ++ pad2 (5 + 1) ++ "() \x7b")
    ∧ ("    public void timeConflictDepth" ++ pad2 (5 + 1) ++ "() \x7b")
        = "    public void timeConflictDepth06() \x7b" :=
  ⟨by decide, (benchmark_method_spec 1 5 (by decide)).1, by decide⟩

/-- C4: the warm-up block for class `i` constructs one instance and then
makes exactly `i+1` dispatch calls, call `j` invoking `callF{imt_size*j}`
on that instance, and for positive `imt_size` the `i+1` referenced helper
indices are pairwise distinct. -/
theorem setup_block_spec (n : Int) (i : Nat) (hn : 0 < n) (hi : i < max_conflict_depth) :
    (setupBlock n i).head?
        = some ("        C" ++ toString i ++ " c" ++ toString i
            ++ " = new C" ++ toString i ++ "();")
    ∧ (setupBlock n i).length = 1 + (i + 1)
    ∧ (∀ j, j < i + 1 →
        (setupBlock n i)[j + 1]?
          = some ("        callF" ++ toString (n * (j : Int))
              ++ "(c" ++ toString i ++ ");"))
    ∧ ((List.range (i + 1)).map (fun j : Nat => n * (j : Int))).Nodup := by
  refine ⟨rfl, by simp [setupBlock, Nat.add_comm], fun j hj => ?_, ?_⟩
  · simp [setupBlock, List.getElem?_map, List.getElem?_range, hj]
  · refine (List.nodup_range _).map ?_
    intro a b hab
    have hc : (a : Int) = (b : Int) := mul_left_cancel₀ (ne_of_gt hn) hab
    exact_mod_cast hc

/-- C4 witness: instantiation at `imt_size = 2`, class `19`, keeping the
pairwise-distinctness conjunct. -/
theorem setup_block_spec_witness :
    (0 : Int) < 2
    ∧ 19 < max_conflict_depth
    ∧ ((List.range (19 + 1)).map (fun j : Nat => (2 : Int) * (j : Int))).Nodup :=
  ⟨by decide, by decide, (setup_block_spec 2 19 (by decide) (by decide)).2.2.2⟩

/-- C6: when `int(sys.argv[1])` fails (missing or non-integer argument)
the run prints exactly the one usage line, exits with status 1, and emits
no generated content; when the argument parses, the error path is not
taken and the run prints the generated file with exit status 0. -/
theorem arg_error_path (argv : List String) :
    (parseImtSize argv = none →
      run argv = ⟨[usageLine], 1⟩
      ∧ (run argv).output = [usageLine]
      ∧ (run argv).exitCode ≠ 0)
    ∧ (∀ n : Int, parseImtSize argv = some n → run argv = ⟨generate n, 0⟩) := by
  constructor
  · intro hp
    have h1 : run argv = ⟨[usageLine], 1⟩ := by
      unfold run
      rw [hp]
    exact ⟨h1, by rw [h1], by rw [h1]; decide⟩
  · intro n hp
    unfold run
    rw [hp]

/-- C6 witness: a missing argument and the argument `"abc"` both take the
error path; the argument `"64"` does not. -/
theorem arg_error_path_witness :
    run ["ImtConflictPerfTestGen.py"] = ⟨[usageLine], 1⟩
    ∧ run ["ImtConflictPerfTestGen.py", "abc"] = ⟨[usageLine], 1⟩
    ∧ run ["ImtConflictPerfTestGen.py", "64"] = ⟨generate 64, 0⟩ :=
  ⟨((arg_error_path ["ImtConflictPerfTestGen.py"]).1 (by decide)).1,
   ((arg_error_path ["ImtConflictPerfTestGen.py", "abc"]).1 (by decide)).1,
   (arg_error_path ["ImtConflictPerfTestGen.py", "64"]).2 64 (by decide)⟩

/-- C7: the argument is never checked for positivity — `"0"` and `"-5"`
both parse, run to completion with exit status 0, and emit non-empty
output; for `imt_size = 0` every interface block declares zero methods,
every one of the 20 dispatch helpers is named `callF0`, and the warm-up
helper indices of each class collapse to all zeroes (so they are not
distinct for any class past the first). -/
theorem no_positivity_check :
    parseImtSize ["ImtConflictPerfTestGen.py", "0"] = some 0
    ∧ parseImtSize ["ImtConflictPerfTestGen.py", "-5"] = some (-5)
    ∧ run ["ImtConflictPerfTestGen.py", "0"] = ⟨generate 0, 0⟩
    ∧ run ["ImtConflictPerfTestGen.py", "-5"] = ⟨generate (-5), 0⟩
    ∧ generate 0 ≠ []
    ∧ generate (-5) ≠ []
    ∧ (∀ i, i < max_conflict_depth →
        interfaceMethodIndices 0 i = []
        ∧ helperLine 0 i
            = "    public void callF0(I" ++ toString i ++ " i) \x7b i.f0(); \x7d")
    ∧ ∀ i : Nat, (List.range (i + 1)).map (fun j : Nat => (0 : Int) * (j : Int))
        = List.replicate (i + 1) (0 : Int) := by
  refine ⟨by decide, by decide, ?_, ?_, by decide, by decide, by decide, fun i => ?_⟩
  · unfold run
    rfl
  · unfold run
    rfl
  · simp

/-- C7 witness: instantiation of the bounded and unbounded parts at
interface `7` and class `3`. -/
theorem no_positivity_check_witness :
    7 < max_conflict_depth
    ∧ (interfaceMethodIndices 0 7 = []
        ∧ helperLine 0 7
            = "    public void callF0(I" ++ toString 7 ++ " i) \x7b i.f0(); \x7d")
    ∧ (List.range (3 + 1)).map (fun j : Nat => (0 : Int) * (j : Int))
        = List.replicate (3 + 1) (0 : Int) :=
  ⟨by decide,
   no_positivity_check.2.2.2.2.2.2.1 7 (by decide),
   no_positivity_check.2.2.2.2.2.2.2 3⟩

/-- C8: the output is a function of the parsed `imt_size` alone — any two
argument vectors whose second entries parse to the same integer produce
identical observable behaviour (same standard output, same exit status). -/
theorem output_depends_only_on_imt_size (a b : List String) (n : Int)
    (ha : parseImtSize a = some n) (hb : parseImtSize b = some n) :
    run a = run b := by
  unfold run
  rw [ha, hb]

/-- C8 witness: two different invocations passing `"7"` coincide. -/
theorem output_depends_only_on_imt_size_witness :
    parseImtSize ["scriptA", "7"] = some 7
    ∧ parseImtSize ["scriptB", "7", "extra"] = some 7
    ∧ run ["scriptA", "7"] = run ["scriptB", "7", "extra"] :=
  ⟨by decide, by decide,
   output_depends_only_on_imt_size ["scriptA", "7"] ["scriptB", "7", "extra"] 7
     (by decide) (by decide)⟩

/-- C9: the output decomposes, in this fixed order, into the license
header, the package line, the import declarations, the documentation
comment, the class header with its rule field, the setup method, the
`max_conflict_depth` (20) benchmark methods, the 20 dispatch helper lines,
the 20 class-declaration lines, the 20 interface blocks, and the closing
brace. -/
theorem output_section_order (n : Int) :
    generate n
      = licenseBlock ++ ["package android.libcore;"] ++ importsBlock ++ descriptionBlock
        ++ headerBlock ++ setupSection n ++ benchmarkSection n ++ helperSection n
        ++ classSection ++ interfaceSection n ++ ["\x7d"]
    ∧ benchmarkSection n = (List.range max_conflict_depth).flatMap (benchmarkLines n)
    ∧ (List.range max_conflict_depth).length = max_conflict_depth
    ∧ (helperSection n).length = max_conflict_depth
    ∧ classSection.length = max_conflict_depth
    ∧ interfaceSection n = (List.range max_conflict_depth).flatMap (interfaceLines n) := by
  refine ⟨?_, rfl, by simp, by simp [helperSection], by simp [classSection], rfl⟩
  simp [generate, licenseBlock, importsBlock, descriptionBlock, headerBlock, setupSection,
    benchmarkSection, helperSection, classSection, interfaceSection, List.append_assoc]

/-- C10: the emitted documentation comment is a fixed block, independent of
`imt_size`, sitting inside the output of every run, and it contains the
hard-coded "Each interface has 64 methods" sentence verbatim whatever the
actual `imt_size` is. -/
theorem stale_doc_64_methods (n : Int) :
    List.IsInfix descriptionBlock (generate n)
    ∧ " * Each interface has 64 methods, which is the current size of an IMT. C0 implements"
        ∈ descriptionBlock
    ∧ " * Each interface has 64 methods, which is the current size of an IMT. C0 implements"
        ∈ generate n := by
  have hmem :
      " * Each interface has 64 methods, which is the current size of an IMT. C0 implements"
        ∈ descriptionBlock := by decide
  have hinf : List.IsInfix descriptionBlock (generate n) := by
    refine ⟨licenseBlock ++ ["package android.libcore;"] ++ importsBlock,
      ["@RunWith(AndroidJUnit4.class)",
       "@LargeTest",
       "public class ImtConflictPerfTest \x7b",
       "    @Rule",
       "    public PerfStatusReporter mPerfStatusReporter = new PerfStatusReporter();",
       "",
       "    @Before",
       "    public void setup() \x7b"]
      ++ (List.range max_conflict_depth).flatMap (setupBlock n)
      ++ ["    \x7d"]
      ++ (List.range max_conflict_depth).flatMap (benchmarkLines n)
      ++ (List.range max_conflict_depth).map (helperLine n)
      ++ (List.range max_conflict_depth).map classLine
      ++ (List.range max_conflict_depth).flatMap (interfaceLines n)
      ++ ["\x7d"], ?_⟩
    simp [generate, List.append_assoc]
  exact ⟨hinf, hmem, hinf.subset hmem⟩

end ImtGen
